import Mathlib

/-!
Verification development for the serverstarter package: a master process that
spawns worker generations, hands listening sockets across exec via inherited
file descriptors, reads a one-byte readiness handshake from each new worker,
and supervises reloads (SIGHUP), stops (SIGINT/SIGTERM) and crash restarts.

The definitions below are shallow embeddings of the Go source:
  - the readiness handshake (SendReady, waitReady),
  - role detection (IsMaster) and listener reconstruction (Listeners),
  - the environment encoding of the listener count (startProcess / strconv),
  - the child descriptor table built from cmd.ExtraFiles (startProcess),
  - the three event-handling branches of the RunMaster select loop.
-/

namespace Serverstarter

/-- The sentinel byte written by the worker: `readyByte = 'r'` (ASCII 114). -/
def readyByte : Nat := 114

/-- `stdFdCount = 3` (stdin, stdout, stderr). -/
def stdFdCount : Nat := 3

/-! ## Readiness handshake: waitReady and SendReady -/

/-- Outcome classification of `(*Starter).waitReady`. -/
inductive ReadyStatus
  /-- waitReady returned nil. -/
  | ok
  /-- the branch `if err != nil` fired: the Read itself reported an error
      (an I/O error, or (0, io.EOF) when the write end closed with no data). -/
  | readError
  /-- the branch `if n != 1 || b[0] != readyByte` fired. -/
  | protocolError
deriving DecidableEq

/-- What the single `s.readyPipeR.Read(b[:])` call with a 1-byte buffer
returned: one byte, end-of-file (pipe closed before any byte), or an I/O
error. -/
inductive ReadOutcome
  | bytes (b : Nat)
  | eof
  | ioError
deriving DecidableEq

/-- The body of `(*Starter).waitReady`, given the outcome of its one Read
call. Returns the outcome classification together with whether
`s.readyPipeR.Close()` was executed. Tracing the Go code: a Read error
(including io.EOF on an empty closed pipe) returns early with a read error;
a byte different from `readyByte` returns early with a protocol error; only
on success is `s.readyPipeR.Close()` reached. -/
def waitReadyCore (r : ReadOutcome) : ReadyStatus × Bool :=
  match r with
  | ReadOutcome.ioError => (ReadyStatus.readError, false)
  | ReadOutcome.eof => (ReadyStatus.readError, false)
  | ReadOutcome.bytes b =>
    if b = readyByte then (ReadyStatus.ok, true)
    else (ReadyStatus.protocolError, false)

/-- Semantics of one Read with a 1-byte buffer on a pipe on which the child
wrote the byte sequence `written` and then closed the write end: the first
byte if any, otherwise (0, io.EOF). -/
def pipeRead1 (written : List Nat) : ReadOutcome :=
  match written with
  | [] => ReadOutcome.eof
  | b :: _ => ReadOutcome.bytes b

/-- `waitReady` as a function of the bytes the child wrote before closing. -/
def waitReady (written : List Nat) : ReadyStatus × Bool :=
  waitReadyCore (pipeRead1 written)

/-- Outcome of `(*Starter).SendReady`. -/
inductive SendStatus
  | ok
  | sendError
deriving DecidableEq

/-- The body of `(*Starter).SendReady`, given whether the one-byte Write on
the inherited descriptor-3 file succeeded. The Bool component records whether
`readyPipeW.Close()` ran: it is deferred before the Write, so it runs on the
success path and on the write-failure path alike. -/
def sendReady (writeOk : Bool) : SendStatus × Bool :=
  if writeOk then (SendStatus.ok, true) else (SendStatus.sendError, true)

/-! ## Environment model: IsMaster and the discriminator variable -/

/-- Process environment as an association list of (name, value) pairs;
`lookupEnv` models `os.LookupEnv` (first binding of the name wins). -/
def lookupEnv (name : String) (env : List (String × String)) : Option String :=
  (env.find? (fun p => p.1 == name)).map (fun p => p.2)

/-- `(*Starter).IsMaster`: `_, isWorker := os.LookupEnv(s.envListenFDs);
return !isWorker`. -/
def isMaster (envListenFDs : String) (env : List (String × String)) : Bool :=
  !(lookupEnv envListenFDs env).isSome

/-! ## strconv: decimal encoding and Atoi -/

/-- ASCII digit character for a value in [0, 10). -/
def digitChar (d : Nat) : Char := Char.ofNat (48 + d)

/-- Whether a character is an ASCII decimal digit. -/
def isGoDigit (c : Char) : Bool :=
  decide (48 ≤ c.toNat) && decide (c.toNat ≤ 57)

/-- Numeric value of an ASCII digit character. -/
def digitVal (c : Char) : Nat := c.toNat - 48

/-- Value of a most-significant-first digit string (the accumulation loop
`n = n*10 + int(ch)` of strconv.Atoi). -/
def decimalVal (cs : List Char) : Nat :=
  cs.foldl (fun n c => n * 10 + digitVal c) 0

/-- Decimal digits of a natural number, most significant first, produced with
explicit fuel (`fuel = n + 1` always suffices since n has at most n+1 digits).
Models the digit production of `strconv.AppendInt` for a nonnegative value. -/
def natToDecAux : Nat → Nat → List Char
  | 0, _ => []
  | fuel + 1, n =>
    if n < 10 then [digitChar n]
    else natToDecAux fuel (n / 10) ++ [digitChar (n % 10)]

/-- Decimal representation of a natural number, as written by
`strconv.AppendInt(..., int64(len(s.listeners)), 10)` (the listener count is
a nonnegative Go int). -/
def natToDec (n : Nat) : List Char := natToDecAux (n + 1) n

/-- Magnitude bound of a 64-bit Go int. -/
def intRange : Int := 2 ^ 63

/-- Digits part of `strconv.Atoi`: nonempty, all ASCII digits. -/
def goAtoiDigits (cs : List Char) : Option Nat :=
  match cs with
  | [] => none
  | _ => if cs.all isGoDigit then some (decimalVal cs) else none

/-- Sign handling of `strconv.Atoi`: an optional leading sign followed by
at least one digit, all characters digits. -/
def goAtoiSigned (s : List Char) : Option Int :=
  match s with
  | [] => none
  | c :: rest =>
    if c = '-' then (goAtoiDigits rest).map (fun n => -(n : Int))
    else if c = '+' then (goAtoiDigits rest).map (fun n => (n : Int))
    else (goAtoiDigits s).map (fun n => (n : Int))

/-- Whether a value fits a 64-bit Go int. -/
def inIntRange (v : Int) : Bool :=
  decide (-intRange ≤ v) && decide (v < intRange)

/-- `strconv.Atoi` on the character list of the input string: an optional
leading sign followed by at least one digit, all characters digits; values
outside the 64-bit int range are a range error (ParseInt path), reported as
an error like any syntax error. Returns the parsed integer, `none` on any
error. -/
def goAtoi (s : List Char) : Option Int :=
  (goAtoiSigned s).bind (fun v => if inIntRange v then some v else none)

/-! ## startProcess: child environment and descriptor table -/

/-- The child environment built by `startProcess`: every binding of the
discriminator name is stripped from the parent environment (the filter on the
`name + "="` prefix over `os.Environ()`), and a single fresh binding
`name = decimal(count)` is appended. -/
def childEnvBinding (name : String) (parentEnv : List (String × String))
    (count : Nat) : List (String × String) :=
  parentEnv.filter (fun p => !(p.1 == name)) ++ [(name, String.mk (natToDec count))]

/-- Kinds of files handed to the child through `cmd.ExtraFiles`. -/
inductive FileKind
  /-- the write end of the readiness pipe (`readyW`). -/
  | pipeWrite
  /-- the dup'ed file of the listener with the given identity. -/
  | listenerSock (id : Nat)
deriving DecidableEq

/-- The `files` slice built by `startProcess`: `files[0] = readyW`,
`files[1+i] = s.listeners[i].File()`. -/
def startProcessFiles (ls : List Nat) : List FileKind :=
  FileKind.pipeWrite :: ls.map FileKind.listenerSock

/-- The child's descriptor table induced by `cmd.ExtraFiles`: entry j of the
slice becomes descriptor `stdFdCount + j` in the child (the Go os/exec
contract); descriptors below `stdFdCount` are the standard streams, not
modelled here. -/
def extraFilesTable (files : List FileKind) (fd : Nat) : Option FileKind :=
  if fd < stdFdCount then none else files.get? (fd - stdFdCount)

/-! ## Listeners: worker-side reconstruction -/

/-- `net.FileListener` on the file found at a descriptor: succeeds exactly
when the descriptor holds a listener socket. -/
def fileListener (f : Option FileKind) : Option Nat :=
  match f with
  | some (FileKind.listenerSock id) => some id
  | _ => none

/-- The reconstruction loop of `(*Starter).Listeners`: for i from the given
index, `count` iterations, reopen descriptor `stdFdCount + 1 + i` as a
listener; fail if `net.FileListener` fails at any slot. -/
def collectFrom (tbl : Nat → Option FileKind) (i : Nat) : Nat → Option (List Nat)
  | 0 => some []
  | k + 1 =>
    match fileListener (tbl (stdFdCount + 1 + i)) with
    | none => none
    | some l => (collectFrom tbl (i + 1) k).map (fun rest => l :: rest)

/-- All `count` iterations of the reconstruction loop, from index 0. -/
def collectListeners (tbl : Nat → Option FileKind) (count : Nat) :
    Option (List Nat) :=
  collectFrom tbl 0 count

/-- Result of `(*Starter).Listeners`. -/
inductive ListenersResult
  /-- the env variable is absent: the master path, `return nil, nil`. -/
  | masterNil
  /-- `strconv.Atoi` failed: "error in Listeners after getting invalid
      listener count". -/
  | configError
  /-- `net.FileListener` failed at some slot: "error in Listeners after
      failing to create listener". -/
  | ioError
  /-- `make([]net.Listener, count)` with a negative count: a Go run-time
      panic (makeslice: len out of range), not an error return. -/
  | makeNegLen
  /-- the reconstructed listener identities, in slot order. -/
  | ok (ls : List Nat)
deriving DecidableEq

/-- `(*Starter).Listeners`, over the environment and the child's descriptor
table: absent variable returns (nil, nil); an Atoi failure is a configuration
error; a negative parsed count panics inside `make`; otherwise each of the
`count` slots starting at descriptor `stdFdCount + 1` must reopen as a
listener. -/
def goListeners (envListenFDs : String) (env : List (String × String))
    (tbl : Nat → Option FileKind) : ListenersResult :=
  match lookupEnv envListenFDs env with
  | none => ListenersResult.masterNil
  | some countStr =>
    match goAtoi countStr.data with
    | none => ListenersResult.configError
    | some count =>
      if count < 0 then ListenersResult.makeNegLen
      else
        match collectListeners tbl count.toNat with
        | none => ListenersResult.ioError
        | some ls => ListenersResult.ok ls

/-- A valid non-negative integer string in the sense of the spec's words
("a valid non-negative integer"): nonempty and all decimal digits. This
definition follows the spec, not the code; it exists only to compare the
spec's phrasing with the code-side parser `goAtoi`. -/
def specValidNonNegInt (s : String) : Bool :=
  !s.data.isEmpty && s.data.all isGoDigit

/-! ## The RunMaster select loop, branch by branch

Each branch of the `select` in `RunMaster` is embedded as a function from the
environment's behaviour (spawn success, bytes the new child writes on its
readiness pipe, kill-delivery outcomes, whether the old child beats the
shutdown timer, the error values delivered on the wait channels) to the list
of observable actions the branch performs, in program order, together with the
branch's contribution to RunMaster's control flow (continue with a new current
pid, return nil, or return an error). -/

/-- Observable actions of the master, in program order. -/
inductive Action
  /-- `s.startProcess()` succeeded and produced this child pid. -/
  | spawned (pid : Nat)
  /-- `s.waitReady()` returned, with the given outcome, for this child. -/
  | readyChecked (pid : Nat) (st : ReadyStatus)
  /-- `syscall.Kill(pid, sig)` was invoked (signal numbers: SIGKILL = 9,
      SIGTERM = 15; the graceful-shutdown signal is a parameter). -/
  | killCalled (pid : Nat) (sig : Nat)
  /-- a receive from the child's wait channel completed: the child's exit
      status was collected, `hadErr` records whether `cmd.Wait` reported an
      error. -/
  | exitObserved (pid : Nat) (hadErr : Bool)
deriving DecidableEq

/-- Error returns of `RunMaster`. -/
inductive MasterErr
  /-- "error in RunMaster after starting (new/restarted) worker". -/
  | startWorkerFailed
  /-- "error in RunMaster after waiting ready". -/
  | waitReadyFailed (st : ReadyStatus)
  /-- "error in RunMaster after sending signal ... after receiving SIGHUP". -/
  | killFailed
  /-- "error in RunMaster after sending signal SIGKILL ...". -/
  | sigkillFailed
  /-- "error from child process" (SIGINT/SIGTERM branch). -/
  | childFailed
deriving DecidableEq

/-- Control-flow outcome of one branch of the loop. -/
inductive MRes (α : Type)
  | ok (a : α)
  | err (e : MasterErr)
deriving DecidableEq

/-- Behaviour of the environment during one SIGHUP (reload) branch. -/
structure HupWorld where
  /-- whether `s.startProcess()` for the new worker succeeds. -/
  spawnOk : Bool
  /-- the bytes the new worker writes on its readiness pipe before closing
      the write end. -/
  newReadyBytes : List Nat
  /-- whether `syscall.Kill(oldChildPID, s.gracefulShutdownSignalToChild)`
      succeeds. -/
  killOldOk : Bool
  /-- whether the old child's wait channel fires before the shutdown timer. -/
  oldExitsInTime : Bool
  /-- the error flag delivered on the old child's wait channel in the
      graceful case. -/
  gracefulWaitErr : Bool
  /-- whether `syscall.Kill(oldChildPID, syscall.SIGKILL)` succeeds. -/
  sigkillOk : Bool
  /-- the error flag delivered on the old child's wait channel after the
      SIGKILL escalation. -/
  killedWaitErr : Bool

/-- The `case syscall.SIGHUP` branch of `RunMaster`: spawn the new worker
(abort on failure); wait for its readiness (abort on failure); send the
configured graceful-shutdown signal `g` to the old child (abort if delivery
fails); then race the old child's wait channel against the shutdown timer —
on timeout send SIGKILL (abort if delivery fails) and receive the wait result
unboundedly; wait-channel errors are printed, never returned. On success the
new child becomes current. -/
def handleSIGHUP (g oldPID newPID : Nat) (w : HupWorld) :
    List Action × MRes Nat :=
  if w.spawnOk then
    match (waitReady w.newReadyBytes).1 with
    | ReadyStatus.ok =>
      let t := [Action.spawned newPID, Action.readyChecked newPID ReadyStatus.ok,
                Action.killCalled oldPID g]
      if w.killOldOk then
        if w.oldExitsInTime then
          (t ++ [Action.exitObserved oldPID w.gracefulWaitErr], MRes.ok newPID)
        else
          let t2 := t ++ [Action.killCalled oldPID 9]
          if w.sigkillOk then
            (t2 ++ [Action.exitObserved oldPID w.killedWaitErr], MRes.ok newPID)
          else (t2, MRes.err MasterErr.sigkillFailed)
      else (t, MRes.err MasterErr.killFailed)
    | st =>
      ([Action.spawned newPID, Action.readyChecked newPID st],
       MRes.err (MasterErr.waitReadyFailed st))
  else ([], MRes.err MasterErr.startWorkerFailed)

/-- Behaviour of the environment during one SIGINT/SIGTERM (stop) branch. -/
structure StopWorld where
  /-- whether `syscall.Kill(childPID, syscall.SIGTERM)` succeeds. -/
  killOk : Bool
  /-- the error flag delivered on the child's wait channel. -/
  waitErr : Bool

/-- The `case syscall.SIGINT, syscall.SIGTERM` branch of `RunMaster`: send
SIGTERM to the current child (abort if delivery fails), then receive the
child's wait result; return the child's failure if any, else return nil. -/
def handleStop (childPID : Nat) (w : StopWorld) : List Action × MRes Unit :=
  if w.killOk then
    if w.waitErr then
      ([Action.killCalled childPID 15, Action.exitObserved childPID true],
       MRes.err MasterErr.childFailed)
    else
      ([Action.killCalled childPID 15, Action.exitObserved childPID false],
       MRes.ok ())
  else ([Action.killCalled childPID 15], MRes.err MasterErr.killFailed)

/-- Behaviour of the environment during one unsolicited-child-exit branch. -/
structure RespawnWorld where
  /-- the error flag received from the current child's wait channel. -/
  exitErr : Bool
  /-- whether the respawn `s.startProcess()` succeeds. -/
  spawnOk : Bool

/-- The `case err := <-childWaitErrC` branch of `RunMaster`: the current
child's exit is observed (the error value is only printed, to stderr or
stdout), then a replacement is spawned unconditionally; the only abort is a
failure of the respawn itself. No readiness wait occurs in this branch. -/
def handleChildExit (oldPID newPID : Nat) (w : RespawnWorld) :
    List Action × MRes Nat :=
  let t := [Action.exitObserved oldPID w.exitErr]
  if w.spawnOk then (t ++ [Action.spawned newPID], MRes.ok newPID)
  else (t, MRes.err MasterErr.startWorkerFailed)

/-- Behaviour of the environment during the initial start (lines before the
loop). -/
structure StartWorld where
  /-- whether the initial `s.startProcess()` succeeds. -/
  spawnOk : Bool
  /-- the bytes the initial worker writes on its readiness pipe. -/
  readyBytes : List Nat

/-- The initial-start sequence of `RunMaster`: spawn generation 0 and wait
for its readiness; a failure of either aborts RunMaster with an error. -/
def masterStart (pid : Nat) (w : StartWorld) : List Action × MRes Nat :=
  if w.spawnOk then
    match (waitReady w.readyBytes).1 with
    | ReadyStatus.ok =>
      ([Action.spawned pid, Action.readyChecked pid ReadyStatus.ok], MRes.ok pid)
    | st =>
      ([Action.spawned pid, Action.readyChecked pid st],
       MRes.err (MasterErr.waitReadyFailed st))
  else ([], MRes.err MasterErr.startWorkerFailed)

/-! ## Trace predicates -/

/-- No `killCalled o _` occurs before the first `readyChecked n ok` in the
trace (scanning left to right: a kill aimed at `o` seen before readiness of
`n` was confirmed refutes the predicate; once readiness of `n` is confirmed
the predicate holds for the remainder). -/
def noKillBeforeReady (o n : Nat) : List Action → Bool
  | [] => true
  | a :: rest =>
    match a with
    | Action.killCalled p _ => if p = o then false else noKillBeforeReady o n rest
    | Action.readyChecked p st =>
      if p = n ∧ st = ReadyStatus.ok then true else noKillBeforeReady o n rest
    | _ => noKillBeforeReady o n rest

/-- The trace contains no kill aimed at `o` at all. -/
def noKillTo (o : Nat) (t : List Action) : Bool :=
  t.all (fun a =>
    match a with
    | Action.killCalled p _ => decide (p ≠ o)
    | _ => true)

/-- The trace contains some readiness-wait completion (successful or not). -/
def hasReadyCheck (t : List Action) : Bool :=
  t.any (fun a =>
    match a with
    | Action.readyChecked _ _ => true
    | _ => false)

/-- Number of kills aimed at `p` with signal `sig` in the trace. -/
def killCount (p sig : Nat) (t : List Action) : Nat :=
  t.countP (fun a => decide (a = Action.killCalled p sig))

/-! ## Helper lemmas -/

theorem decimalVal_append_digit (cs : List Char) (c : Char) :
    decimalVal (cs ++ [c]) = decimalVal cs * 10 + digitVal c := by
  simp [decimalVal, List.foldl_append]

theorem digitChar_isGoDigit (d : Nat) (h : d < 10) :
    isGoDigit (digitChar d) = true := by
  interval_cases d <;> decide

theorem digitVal_digitChar (d : Nat) (h : d < 10) :
    digitVal (digitChar d) = d := by
  interval_cases d <;> decide

theorem natToDecAux_succ (fuel n : Nat) :
    natToDecAux (fuel + 1) n
      = if n < 10 then [digitChar n]
        else natToDecAux fuel (n / 10) ++ [digitChar (n % 10)] := rfl

theorem natToDecAux_spec (fuel : Nat) :
    ∀ n : Nat, n < 10 ^ (fuel + 1) →
      (natToDecAux (fuel + 1) n).all isGoDigit = true ∧
      decimalVal (natToDecAux (fuel + 1) n) = n ∧
      natToDecAux (fuel + 1) n ≠ [] := by
  induction fuel with
  | zero =>
    intro n hn
    have h10 : n < 10 := by simpa using hn
    rw [natToDecAux_succ, if_pos h10]
    simp [List.all_cons, digitChar_isGoDigit n h10, decimalVal,
      digitVal_digitChar n h10]
  | succ fuel ih =>
    intro n hn
    by_cases h10 : n < 10
    · rw [natToDecAux_succ, if_pos h10]
      simp [List.all_cons, digitChar_isGoDigit n h10, decimalVal,
        digitVal_digitChar n h10]
    · have hdiv : n / 10 < 10 ^ (fuel + 1) := by
        rw [Nat.div_lt_iff_lt_mul (by norm_num)]
        calc n < 10 ^ (fuel + 1 + 1) := hn
          _ = 10 ^ (fuel + 1) * 10 := by ring
      obtain ⟨hall, hval, hne⟩ := ih (n / 10) hdiv
      have hmod : n % 10 < 10 := Nat.mod_lt _ (by norm_num)
      rw [natToDecAux_succ, if_neg h10]
      refine ⟨?_, ?_, ?_⟩
      · rw [List.all_append, hall]
        simp [List.all_cons, digitChar_isGoDigit _ hmod]
      · rw [decimalVal_append_digit, hval, digitVal_digitChar _ hmod]
        omega
      · simp

theorem natToDec_spec (n : Nat) :
    (natToDec n).all isGoDigit = true ∧ decimalVal (natToDec n) = n ∧
    natToDec n ≠ [] := by
  have hb : n < 10 ^ (n + 1) :=
    lt_of_lt_of_le (Nat.lt_pow_self (by norm_num) n)
      (Nat.pow_le_pow_right (by norm_num) (Nat.le_succ n))
  exact natToDecAux_spec n n hb

theorem goAtoi_all_digits (cs : List Char) (hne : cs ≠ [])
    (hd : cs.all isGoDigit = true)
    (hr : (decimalVal cs : Int) < intRange) :
    goAtoi cs = some ((decimalVal cs : Nat) : Int) := by
  cases cs with
  | nil => exact absurd rfl hne
  | cons c rest =>
    have hc : isGoDigit c = true := by
      simp [List.all_cons] at hd
      exact hd.1
    have hminus : ¬(c = '-') := by
      intro h
      rw [h] at hc
      exact absurd hc (by decide)
    have hplus : ¬(c = '+') := by
      intro h
      rw [h] at hc
      exact absurd hc (by decide)
    have hdig : goAtoiDigits (c :: rest) = some (decimalVal (c :: rest)) := by
      simp [goAtoiDigits, hd]
    have hsig : goAtoiSigned (c :: rest)
        = some ((decimalVal (c :: rest) : Nat) : Int) := by
      rw [goAtoiSigned, if_neg hminus, if_neg hplus, hdig]
      rfl
    have hlow : -intRange ≤ ((decimalVal (c :: rest) : Nat) : Int) := by
      have hpos : (0 : Int) < intRange := by unfold intRange; positivity
      omega
    have hin : inIntRange ((decimalVal (c :: rest) : Nat) : Int) = true := by
      rw [inIntRange, decide_eq_true hlow, decide_eq_true hr]
      rfl
    rw [goAtoi, hsig, Option.some_bind, hin]
    rfl

theorem goAtoi_natToDec (n : Nat) (h : (n : Int) < intRange) :
    goAtoi (natToDec n) = some (n : Int) := by
  obtain ⟨hall, hval, hne⟩ := natToDec_spec n
  rw [goAtoi_all_digits (natToDec n) hne hall (by rw [hval]; exact h), hval]

theorem lookupEnv_childEnvBinding (name : String)
    (env : List (String × String)) (c : Nat) :
    lookupEnv name (childEnvBinding name env c)
      = some (String.mk (natToDec c)) := by
  unfold lookupEnv childEnvBinding
  rw [List.find?_append]
  have h1 : (env.filter (fun p => !(p.1 == name))).find? (fun p => p.1 == name)
      = none := by
    rw [List.find?_eq_none]
    intro x hx
    have hmem := List.mem_filter.mp hx
    simpa using hmem.2
  rw [h1]
  simp [List.find?]

theorem extraFilesTable_listener (ls : List Nat) (i : Nat) (hi : i < ls.length) :
    extraFilesTable (startProcessFiles ls) (stdFdCount + 1 + i)
      = some (FileKind.listenerSock ls[i]) := by
  unfold extraFilesTable startProcessFiles stdFdCount
  have hlt : ¬(3 + 1 + i < 3) := by omega
  have hidx : 3 + 1 + i - 3 = i + 1 := by omega
  simp only [hlt, if_false, hidx]
  simp [List.get?_eq_getElem?, List.getElem?_map, List.getElem?_eq_getElem hi]

theorem collectFrom_drop (ls : List Nat) :
    ∀ (k i : Nat), i + k = ls.length →
      collectFrom (extraFilesTable (startProcessFiles ls)) i k
        = some (ls.drop i) := by
  intro k
  induction k with
  | zero =>
    intro i h
    have hi : i = ls.length := by omega
    subst hi
    simp [collectFrom, List.drop_length]
  | succ k ih =>
    intro i h
    have hi : i < ls.length := by omega
    rw [collectFrom, extraFilesTable_listener ls i hi]
    rw [show fileListener (some (FileKind.listenerSock ls[i])) = some ls[i] from rfl]
    rw [ih (i + 1) (by omega), List.drop_eq_getElem_cons hi]
    rfl

/-! ## Claim theorems -/

/-- C1: in every SIGHUP (reload) branch, no graceful-shutdown (or any other)
signal is sent to the old generation before the new generation's readiness
has been confirmed; and when waitReady fails, the branch aborts RunMaster
with the waitReady error and the old generation is never signaled at all. -/
theorem reload_ready_confirmed_before_old_signaled (g o n : Nat) (w : HupWorld) :
    noKillBeforeReady o n (handleSIGHUP g o n w).1 = true ∧
    (w.spawnOk = true → (waitReady w.newReadyBytes).1 ≠ ReadyStatus.ok →
      (handleSIGHUP g o n w).2
          = MRes.err (MasterErr.waitReadyFailed (waitReady w.newReadyBytes).1) ∧
      noKillTo o (handleSIGHUP g o n w).1 = true) := by
  obtain ⟨so, bytes, ko, oe, ge, sk, ke⟩ := w
  cases so with
  | false => simp [handleSIGHUP, noKillBeforeReady]
  | true =>
    rcases hst : (waitReady bytes).1 with _ | _ | _
    · cases ko <;> cases oe <;> cases sk <;>
        simp [handleSIGHUP, hst, noKillBeforeReady, noKillTo]
    · simp [handleSIGHUP, hst, noKillBeforeReady, noKillTo]
    · simp [handleSIGHUP, hst, noKillBeforeReady, noKillTo]

/-- C1 witness: a reload whose new worker closes the readiness pipe without
writing (waitReady fails) aborts with the waitReady error and the old
generation pid 1 receives no signal. -/
theorem reload_ready_confirmed_before_old_signaled_witness :
    (handleSIGHUP 15 1 2 ⟨true, [], true, true, false, true, false⟩).2
      = MRes.err (MasterErr.waitReadyFailed ReadyStatus.readError) ∧
    noKillTo 1
      (handleSIGHUP 15 1 2 ⟨true, [], true, true, false, true, false⟩).1
      = true := by
  have h := (reload_ready_confirmed_before_old_signaled 15 1 2
    ⟨true, [], true, true, false, true, false⟩).2 rfl (by decide)
  exact ⟨h.1, h.2⟩

/-- C2 counterexample: the child wrote two bytes (both equal to the
sentinel); the claim demands an error in the more-than-one-byte case, but
waitReady reads only the first byte of its 1-byte buffer and succeeds. -/
theorem waitReady_two_bytes_still_ok_cex :
    (waitReady [readyByte, readyByte]).1 = ReadyStatus.ok ∧
    (waitReady [readyByte, readyByte]).1 ≠ ReadyStatus.readError ∧
    (waitReady [readyByte, readyByte]).1 ≠ ReadyStatus.protocolError := by
  decide

/-- C2 (amended): waitReady succeeds iff the first byte available on the
pipe equals the sentinel; zero bytes (pipe closed immediately) is an error, a
wrong first byte is an error, and an I/O error on the read is an error —
but bytes beyond the first are never examined. -/
theorem waitReady_success_iff_first_byte_sentinel (ws : List Nat) :
    ((waitReady ws).1 = ReadyStatus.ok ↔ ws.head? = some readyByte) ∧
    (waitReady []).1 = ReadyStatus.readError ∧
    (∀ b, ¬(b = readyByte) →
      (waitReady (b :: ws)).1 = ReadyStatus.protocolError) ∧
    (waitReadyCore ReadOutcome.ioError).1 = ReadyStatus.readError := by
  refine ⟨?_, by decide, ?_, by decide⟩
  · cases ws with
    | nil => simp [waitReady, pipeRead1, waitReadyCore]
    | cons b rest =>
      by_cases hb : b = readyByte <;>
        simp [waitReady, pipeRead1, waitReadyCore, hb]
  · intro b hb
    simp [waitReady, pipeRead1, waitReadyCore, hb]

/-- C2 witness: a wrong first byte is a protocol error. -/
theorem waitReady_success_iff_first_byte_sentinel_witness :
    (waitReady (0 :: [114])).1 = ReadyStatus.protocolError :=
  (waitReady_success_iff_first_byte_sentinel [114]).2.2.1 0 (by decide)

/-- C3 counterexample: after a crash of the current worker (exit observed
with an error), the replacement is spawned and the loop continues with no
readiness check at all — unlike the initial worker, whose failed readiness
check aborts RunMaster. -/
theorem crash_restart_has_no_ready_check_cex :
    (handleChildExit 1 2 ⟨true, true⟩).2 = MRes.ok 2 ∧
    hasReadyCheck (handleChildExit 1 2 ⟨true, true⟩).1 = false ∧
    (masterStart 1 ⟨true, []⟩).2
      = MRes.err (MasterErr.waitReadyFailed ReadyStatus.readError) := by
  decide

/-- C3 (amended): on an unsolicited child exit the master unconditionally
spawns a replacement regardless of the exit status, never surfaces the crash
as a master-level error, and performs no readiness check on the replacement;
the branch aborts only if the respawn itself fails. -/
theorem crash_restart_unconditional_respawn (o n : Nat) (w : RespawnWorld)
    (h : w.spawnOk = true) :
    (handleChildExit o n w).1
      = [Action.exitObserved o w.exitErr, Action.spawned n] ∧
    (handleChildExit o n w).2 = MRes.ok n ∧
    hasReadyCheck (handleChildExit o n w).1 = false := by
  simp [handleChildExit, h, hasReadyCheck]

/-- C3 witness: a crash (exit with error) is followed by a successful
respawn and the loop continues. -/
theorem crash_restart_unconditional_respawn_witness :
    (handleChildExit 1 2 ⟨true, true⟩).2 = MRes.ok 2 :=
  (crash_restart_unconditional_respawn 1 2 ⟨true, true⟩ rfl).2.1

/-- C4: when the shutdown-wait timer fires before the old generation exits
(and the SIGKILL delivery succeeds), the master sends SIGKILL to the old
generation and then collects its exit status, and an error reported by that
final wait does not abort the loop (the branch still promotes the new
generation). -/
theorem reload_timeout_sigkill_then_unbounded_wait (g o n : Nat) (w : HupWorld)
    (h1 : w.spawnOk = true) (h2 : (waitReady w.newReadyBytes).1 = ReadyStatus.ok)
    (h3 : w.killOldOk = true) (h4 : w.oldExitsInTime = false)
    (h5 : w.sigkillOk = true) :
    (handleSIGHUP g o n w).1
      = [Action.spawned n, Action.readyChecked n ReadyStatus.ok,
         Action.killCalled o g, Action.killCalled o 9,
         Action.exitObserved o w.killedWaitErr] ∧
    (handleSIGHUP g o n w).2 = MRes.ok n := by
  simp [handleSIGHUP, h1, h2, h3, h4, h5]

/-- C4 witness: timeout path with a wait error, still promoting the new
generation. -/
theorem reload_timeout_sigkill_then_unbounded_wait_witness :
    (handleSIGHUP 15 1 2 ⟨true, [114], true, false, false, true, true⟩).2
      = MRes.ok 2 :=
  (reload_timeout_sigkill_then_unbounded_wait 15 1 2
    ⟨true, [114], true, false, false, true, true⟩ rfl (by decide) rfl rfl rfl).2

/-- C5: descriptor handoff round-trips — startProcess attaches the readiness
pipe write end at descriptor 3 and the listeners at descriptors 4 through
3+N in export order, and Listeners reconstructs exactly the N listeners in
that order from those slots. -/
theorem descriptor_handoff_roundtrip (ls : List Nat) (name : String)
    (parentEnv : List (String × String)) (hlen : (ls.length : Int) < intRange) :
    extraFilesTable (startProcessFiles ls) stdFdCount = some FileKind.pipeWrite ∧
    (∀ i, (hi : i < ls.length) →
      extraFilesTable (startProcessFiles ls) (stdFdCount + 1 + i)
        = some (FileKind.listenerSock ls[i])) ∧
    goListeners name (childEnvBinding name parentEnv ls.length)
      (extraFilesTable (startProcessFiles ls)) = ListenersResult.ok ls := by
  refine ⟨rfl, fun i hi => extraFilesTable_listener ls i hi, ?_⟩
  have hlook := lookupEnv_childEnvBinding name parentEnv ls.length
  have hdata : (String.mk (natToDec ls.length)).data = natToDec ls.length := rfl
  simp only [goListeners, hlook, hdata, goAtoi_natToDec ls.length hlen]
  have hneg : ¬((ls.length : Int) < 0) := Int.not_lt.mpr (Int.ofNat_nonneg _)
  rw [if_neg hneg]
  have htn : ((ls.length : Int)).toNat = ls.length := Int.toNat_ofNat ls.length
  rw [htn, collectListeners, collectFrom_drop ls ls.length 0 (by omega),
    List.drop_zero]

/-- C5 witness: two listeners round-trip through the environment encoding
and the descriptor table. -/
theorem descriptor_handoff_roundtrip_witness :
    goListeners "LISTEN_FDS" (childEnvBinding "LISTEN_FDS" [] 2)
      (extraFilesTable (startProcessFiles [10, 20]))
      = ListenersResult.ok [10, 20] :=
  (descriptor_handoff_roundtrip [10, 20] "LISTEN_FDS" [] (by decide)).2.2

/-- C6 counterexample: the value "-1" is not a valid non-negative integer,
so the claim demands a ConfigurationError; but strconv.Atoi accepts it, so
Listeners does not return the configuration error — it reaches
`make([]net.Listener, -1)`, a run-time panic. -/
theorem negative_count_not_config_error_cex :
    specValidNonNegInt "-1" = false ∧
    goAtoi "-1".data = some (-1) ∧
    goListeners "LISTEN_FDS" [("LISTEN_FDS", "-1")] (fun _ => none)
      = ListenersResult.makeNegLen ∧
    ListenersResult.makeNegLen ≠ ListenersResult.configError := by
  decide

/-- C6 (amended): encoding a listener count and re-parsing it recovers the
identical integer for every N in [0, 64); Listeners fails with a
ConfigurationError exactly when the discriminator value is not a valid
signed decimal integer within the 64-bit int range — a negative integer
value passes the parse and instead panics when allocating the listener
slice. -/
theorem listen_count_roundtrip_and_parse_errors (name : String) :
    (∀ n : Nat, n < 64 → goAtoi (natToDec n) = some (n : Int)) ∧
    (∀ (env : List (String × String)) (tbl : Nat → Option FileKind)
      (s : String), lookupEnv name env = some s →
      (goListeners name env tbl = ListenersResult.configError ↔
        goAtoi s.data = none)) ∧
    goListeners "LISTEN_FDS" [("LISTEN_FDS", "-1")] (fun _ => none)
      = ListenersResult.makeNegLen := by
  refine ⟨?_, ?_, by decide⟩
  · intro m hm
    refine goAtoi_natToDec m ?_
    have h64 : (64 : Int) ≤ intRange := by unfold intRange; norm_num
    omega
  · intro env tbl s hs
    simp only [goListeners, hs]
    rcases ha : goAtoi s.data with _ | v
    · simp [ha]
    · simp only [ha]
      have hne : (if v < 0 then ListenersResult.makeNegLen
          else match collectListeners tbl v.toNat with
            | none => ListenersResult.ioError
            | some ls => ListenersResult.ok ls)
          ≠ ListenersResult.configError := by
        by_cases hv : v < 0
        · simp [hv]
        · simp only [if_neg hv]
          rcases hc : collectListeners tbl v.toNat with _ | l <;> simp [hc]
      simp [hne]

/-- C6 witness: the count 5 round-trips. -/
theorem listen_count_roundtrip_and_parse_errors_witness :
    goAtoi (natToDec 5) = some (5 : Int) :=
  (listen_count_roundtrip_and_parse_errors "LISTEN_FDS").1 5 (by decide)

/-- C7: IsMaster is a total function of the environment that returns false
(Worker) iff the discriminator variable is bound in the environment — for
any value, including "0" and the empty string — and true (Master)
otherwise. -/
theorem isMaster_iff_discriminator_absent (name : String)
    (env : List (String × String)) :
    (isMaster name env = false ↔ ∃ v, (name, v) ∈ env) ∧
    isMaster "LISTEN_FDS" [("LISTEN_FDS", "0")] = false ∧
    isMaster "LISTEN_FDS" [("LISTEN_FDS", "")] = false ∧
    isMaster "LISTEN_FDS" [("HOME", "/root")] = true := by
  refine ⟨?_, by decide, by decide, by decide⟩
  unfold isMaster lookupEnv
  rcases hf : env.find? (fun p => p.1 == name) with _ | x
  · simp only [hf, Option.map_none', Option.isSome_none, Bool.not_false]
    constructor
    · intro h
      simp at h
    · rintro ⟨v, hv⟩
      have hpred := List.find?_eq_none.mp hf (name, v) hv
      simp at hpred
  · simp only [hf, Option.map_some', Option.isSome_some, Bool.not_true]
    have h1 := List.find?_some hf
    have h2 := List.mem_of_find?_eq_some hf
    simp only [beq_iff_eq] at h1
    constructor
    · intro _
      refine ⟨x.2, ?_⟩
      rw [← h1, Prod.mk.eta]
      exact h2
    · intro _
      trivial

/-- C8: on an interrupt/terminate signal (with the SIGTERM delivery to the
child succeeding), the master sends SIGTERM to the current generation
exactly once, observes the generation's exit before returning, and returns
nil iff the child exited cleanly (otherwise the child's failure). -/
theorem stop_sigterm_once_waits_exit (p : Nat) (w : StopWorld)
    (h : w.killOk = true) :
    (handleStop p w).1
      = [Action.killCalled p 15, Action.exitObserved p w.waitErr] ∧
    killCount p 15 (handleStop p w).1 = 1 ∧
    (handleStop p w).2
      = (if w.waitErr then MRes.err MasterErr.childFailed else MRes.ok ()) := by
  obtain ⟨ko, we⟩ := w
  cases ko with
  | false => exact absurd h (by simp)
  | true =>
    cases we <;>
      simp [handleStop, killCount, List.countP_cons, List.countP_nil]

/-- C8 witness: SIGTERM is delivered exactly once to pid 1. -/
theorem stop_sigterm_once_waits_exit_witness :
    killCount 1 15 (handleStop 1 ⟨true, false⟩).1 = 1 :=
  (stop_sigterm_once_waits_exit 1 ⟨true, false⟩ rfl).2.1

/-- C9 counterexample: when the pipe closes with no data, waitReady fails
with a read error and the master's read end is NOT closed — refuting the
claim that the read end is closed after waitReady both on success and on
failure. -/
theorem waitReady_error_leaves_read_end_open_cex :
    (waitReady []).1 = ReadyStatus.readError ∧ (waitReady []).2 = false := by
  decide

/-- C9 (amended): the master closes its read end of the readiness pipe iff
waitReady succeeds; on a read error or protocol error the early return skips
the Close and the read end stays open. -/
theorem waitReady_closes_iff_success (ws : List Nat) (r : ReadOutcome) :
    ((waitReady ws).2 = true ↔ (waitReady ws).1 = ReadyStatus.ok) ∧
    ((waitReadyCore r).2 = true ↔ (waitReadyCore r).1 = ReadyStatus.ok) := by
  constructor
  · cases ws with
    | nil => simp [waitReady, pipeRead1, waitReadyCore]
    | cons b rest =>
      by_cases hb : b = readyByte <;>
        simp [waitReady, pipeRead1, waitReadyCore, hb]
  · cases r with
    | bytes b => by_cases hb : b = readyByte <;> simp [waitReadyCore, hb]
    | eof => simp [waitReadyCore]
    | ioError => simp [waitReadyCore]

/-- C10: SendReady closes the inherited write end on every path — the Close
is deferred before the Write — and succeeds iff the write of the sentinel
byte succeeds. -/
theorem sendReady_always_closes_write_end (writeOk : Bool) :
    (sendReady writeOk).2 = true ∧
    ((sendReady writeOk).1 = SendStatus.ok ↔ writeOk = true) := by
  cases writeOk <;> simp [sendReady]

end Serverstarter
